import Mathlib

/-!
Verification development for the IoT telemetry dashboard backend.

Shallow embedding of the telemetry ingestion and alert-evaluation pipeline:
* `backend/src/models/Device.js` (serial validation, `updateLastSeen`)
* `backend/src/models/Parameter.js` (`validateValue`)
* `backend/src/models/Alert.js` (`shouldTrigger`, `recordTrigger`)
* `backend/src/models/Telemetry.js` (`storeTelemetry`, `getAggregatedParameter`)
* `backend/src/mqtt/client.js` (`handleTelemetry`, `handleStatus`)
* `backend/src/services/alertEngine.js` (`checkThresholds`, `triggerAlert`)

JavaScript numbers are modelled as rationals (only order comparisons and exact
small-integer arithmetic occur on the verified paths, so no floating-point
rounding is observable there); JSON values as the inductive `JSValue`;
fallible operations (Mongoose `save()` validation) as `Except`.
-/

namespace IotDash

/-- A JSON value as it appears in an MQTT payload: number, boolean, string
or null (the shapes `JSON.parse` can put into a flat field map; nested
objects/arrays are not used by the verified code paths). -/
inductive JSValue where
  | num (q : ℚ)
  | bool (b : Bool)
  | str (s : String)
  | null
deriving DecidableEq, Repr

/-- JavaScript `ToNumber` on a decimal string literal: trimmed empty string
is 0, optional sign, digits with optional fraction; anything else is NaN
(`none`). Hex and exponent forms are not modelled (never used by the repo). -/
def digitsToNat (l : List Char) : ℕ :=
  l.foldl (fun acc c => 10 * acc + (c.toNat - 48)) 0

/-- String-to-number coercion; `none` models NaN. -/
def strToNumber (s : String) : Option ℚ :=
  let t := (s.trim).toList
  if t.isEmpty then some 0
  else
    let (sign, rest) : ℚ × List Char :=
      match t with
      | '-' :: cs => (-1, cs)
      | '+' :: cs => (1, cs)
      | cs => (1, cs)
    let intPart := rest.takeWhile Char.isDigit
    let rest2 := rest.dropWhile Char.isDigit
    match rest2 with
    | [] => if intPart.isEmpty then none else some (sign * digitsToNat intPart)
    | '.' :: frac =>
      if frac.all Char.isDigit && (!intPart.isEmpty || !frac.isEmpty) then
        some (sign * ((digitsToNat intPart : ℚ) + (digitsToNat frac : ℚ) / (10 ^ frac.length)))
      else none
    | _ => none

/-- JavaScript `ToNumber` on a JSON value; `none` models NaN. -/
def toNumber : JSValue → Option ℚ
  | .num q => some q
  | .bool b => some (if b then 1 else 0)
  | .null => some 0
  | .str s => strToNumber s

/-- JS relational `value < m` against a number `m` (NaN comparisons are false). -/
def jsLtQ (v : JSValue) (m : ℚ) : Bool :=
  match toNumber v with
  | some x => decide (x < m)
  | none => false

/-- JS relational `value > m` against a number `m` (NaN comparisons are false). -/
def jsGtQ (v : JSValue) (m : ℚ) : Bool :=
  match toNumber v with
  | some x => decide (m < x)
  | none => false

/-- Rendering used when a value is interpolated into a template string. -/
def JSValue.render : JSValue → String
  | .num q => toString q
  | .bool b => if b then "true" else "false"
  | .str s => s
  | .null => "null"

/-! ## Alert model (`backend/src/models/Alert.js`) -/

/-- One threshold definition of an alert rule: `{ value, enabled }`
(schema defaults: `value: null`, `enabled: false`). -/
structure Threshold where
  value : Option ℚ
  enabled : Bool
deriving DecidableEq, Repr

/-- An alert rule document (the fields read by `shouldTrigger`,
`recordTrigger` and the alert engine). Times are epoch milliseconds. -/
structure Alert where
  parameterName : String
  enabled : Bool
  upperThreshold : Threshold
  lowerThreshold : Threshold
  /-- Seconds to wait before sending another alert for the same condition. -/
  cooldownPeriod : ℚ
  lastTriggered : Option ℚ
  triggerCount : ℕ
  severity : String
deriving DecidableEq, Repr

/-- The object returned by `alertSchema.methods.shouldTrigger`: a tagged
record with `shouldTrigger` plus the fields present on each return path. -/
structure TriggerResult where
  shouldTrigger : Bool
  reason : Option String := none
  remainingCooldown : Option ℚ := none
  thresholdType : Option String := none
  threshold : Option ℚ := none
  value : Option JSValue := none
  message : Option String := none
deriving DecidableEq, Repr

/-- The `// Check lower threshold` block of `shouldTrigger`. -/
def lowerCheck (a : Alert) (value : JSValue) : TriggerResult :=
  match a.lowerThreshold.enabled, a.lowerThreshold.value with
  | true, some l =>
    if jsLtQ value l then
      { shouldTrigger := true, thresholdType := some "lower", threshold := some l,
        value := some value,
        message := some (a.parameterName ++ " below lower threshold: " ++
          value.render ++ " < " ++ toString l) }
    else { shouldTrigger := false, reason := some "Within thresholds" }
  | _, _ => { shouldTrigger := false, reason := some "Within thresholds" }

/-- The `// Check upper threshold` block of `shouldTrigger`, falling through
to the lower-threshold block. -/
def upperCheck (a : Alert) (value : JSValue) : TriggerResult :=
  match a.upperThreshold.enabled, a.upperThreshold.value with
  | true, some u =>
    if jsGtQ value u then
      { shouldTrigger := true, thresholdType := some "upper", threshold := some u,
        value := some value,
        message := some (a.parameterName ++ " exceeded upper threshold: " ++
          value.render ++ " > " ++ toString u) }
    else lowerCheck a value
  | _, _ => lowerCheck a value

/-- `alertSchema.methods.shouldTrigger(value)`; `now` is `Date.now()` in
epoch milliseconds, made an explicit argument. -/
def shouldTrigger (now : ℚ) (a : Alert) (value : JSValue) : TriggerResult :=
  if !a.enabled then
    { shouldTrigger := false, reason := some "Alert disabled" }
  else
    match a.lastTriggered with
    | some t =>
      let timeSinceLastTrigger := (now - t) / 1000
      if timeSinceLastTrigger < a.cooldownPeriod then
        { shouldTrigger := false, reason := some "Cooldown period active",
          remainingCooldown := some (a.cooldownPeriod - timeSinceLastTrigger) }
      else upperCheck a value
    | none => upperCheck a value

/-- `alertSchema.methods.recordTrigger()`: set `lastTriggered` to now and
increment `triggerCount` (the `save()` is a pure state update here). -/
def recordTrigger (now : ℚ) (a : Alert) : Alert :=
  { a with lastTriggered := some now, triggerCount := a.triggerCount + 1 }

/-- The cooldown-suppression condition of `shouldTrigger` as a Boolean. -/
def cooldownActive (now : ℚ) (a : Alert) : Bool :=
  match a.lastTriggered with
  | some t => decide ((now - t) / 1000 < a.cooldownPeriod)
  | none => false

/-- The upper-threshold condition: threshold enabled, has a value, and the
candidate exceeds it. -/
def upperFires (a : Alert) (v : ℚ) : Bool :=
  a.upperThreshold.enabled &&
    match a.upperThreshold.value with
    | some u => decide (u < v)
    | none => false

/-- The lower-threshold condition: threshold enabled, has a value, and the
candidate is below it. -/
def lowerFires (a : Alert) (v : ℚ) : Bool :=
  a.lowerThreshold.enabled &&
    match a.lowerThreshold.value with
    | some l => decide (v < l)
    | none => false

/-- A reading value qualifies for a rule when, cooldown aside, the rule is
enabled and one of its thresholds is crossed. -/
def qualifies (a : Alert) (v : ℚ) : Bool :=
  a.enabled && (upperFires a v || lowerFires a v)

/-! ## Parameter model (`backend/src/models/Parameter.js`) -/

/-- The `dataType` enum of the parameter schema. -/
inductive DataType where
  | boolean
  | integer
  | unsigned_integer
  | float
  | sfloat
  | string
deriving DecidableEq, Repr

/-- A parameter definition (the fields read by `validateValue` and
`getDeviceParameters`). -/
structure Parameter where
  deviceId : ℕ
  name : String
  dataType : DataType
  minValue : Option ℚ
  maxValue : Option ℚ
  enabled : Bool
deriving DecidableEq, Repr

/-- The `{ valid, error }` object returned by `validateValue`. -/
structure VResult where
  valid : Bool
  error : Option String := none
deriving DecidableEq, Repr

/-- `Number.isInteger(value)`: a number with an integral value. -/
def isIntegerNum : JSValue → Bool
  | .num q => q.den == 1
  | _ => false

/-- `typeof value === 'boolean'`. -/
def isBoolVal : JSValue → Bool
  | .bool _ => true
  | _ => false

/-- `typeof value === 'number'`. -/
def isNumVal : JSValue → Bool
  | .num _ => true
  | _ => false

/-- `typeof value === 'string'`. -/
def isStrVal : JSValue → Bool
  | .str _ => true
  | _ => false

/-- The `switch (this.dataType)` type-validation block of `validateValue`:
`some e` is the early return `{ valid: false, error: e }`, `none` means the
switch fell through to range validation. -/
def typeCheckError (d : DataType) (value : JSValue) : Option String :=
  match d with
  | .boolean => if !isBoolVal value then some "Value must be boolean" else none
  | .integer => if !isIntegerNum value then some "Value must be an integer" else none
  | .unsigned_integer =>
    if !isIntegerNum value then some "Value must be an integer"
    else if jsLtQ value 0 then some "Value must be non-negative"
    else none
  | .float | .sfloat => if !isNumVal value then some "Value must be a number" else none
  | .string => if !isStrVal value then some "Value must be a string" else none

/-- The `maxValue` half of the range-validation block. -/
def rangeMaxCheck (p : Parameter) (value : JSValue) : VResult :=
  match p.maxValue with
  | some m =>
    if jsGtQ value m then
      { valid := false, error := some ("Value must be <= " ++ toString m) }
    else { valid := true }
  | none => { valid := true }

/-- The `minValue` half of the range-validation block, falling through to
the `maxValue` half. -/
def rangeCheck (p : Parameter) (value : JSValue) : VResult :=
  match p.minValue with
  | some m =>
    if jsLtQ value m then
      { valid := false, error := some ("Value must be >= " ++ toString m) }
    else rangeMaxCheck p value
  | none => rangeMaxCheck p value

/-- `parameterSchema.methods.validateValue(value)`: type validation first
(early return on failure), then range validation. -/
def validateValue (p : Parameter) (value : JSValue) : VResult :=
  match typeCheckError p.dataType value with
  | some e => { valid := false, error := some e }
  | none => rangeCheck p value

/-! ## Device model (`backend/src/models/Device.js`) -/

/-- A character of the JS regex class `[a-zA-Z0-9_]`. -/
def isWordChar (c : Char) : Bool :=
  c.isAlpha || c.isDigit || c == '_'

/-- The `serialNumber` field validator of the device schema:
`/^[a-zA-Z0-9_]+$/.test(v)` — a non-empty string of word characters. -/
def serialFieldValidator (s : String) : Bool :=
  !s.data.isEmpty && s.data.all isWordChar

/-- `deviceSchema.statics.validateSerialNumber(serialNumber)`:
`/^[a-zA-Z0-9_]+$/.test(serialNumber)` — a non-empty string of word
characters. -/
def validateSerialNumber (s : String) : Bool :=
  !s.data.isEmpty && s.data.all isWordChar

/-- A device document (the fields read by the ingestion pipeline). Times
are epoch milliseconds; `deviceId` stands for the Mongo `_id`. -/
structure Device where
  deviceId : ℕ
  serialNumber : String
  enabled : Bool
  status : String
  lastSeen : Option ℕ
deriving DecidableEq, Repr

/-- The `status` enum of the device schema. -/
def deviceStatusEnum : List String :=
  ["online", "offline", "error", "maintenance"]

/-! ## Telemetry model (`backend/src/models/Telemetry.js`) -/

/-- The `serialNumber` field validator of the telemetry schema:
`/^\d{10}$/.test(v)` (exactly ten decimal digits). -/
def telemetrySerialValid (s : String) : Bool :=
  s.data.length == 10 && s.data.all Char.isDigit

/-- A flat JSON field map (JSON object keys are unique; duplicate keys
cannot arise from `JSON.parse`). -/
abbrev Payload := List (String × JSValue)

/-- Property access `payload[k]`: `none` models `undefined`. -/
def lookupField (p : Payload) (k : String) : Option JSValue :=
  (p.find? (fun kv => kv.1 == k)).map (·.2)

/-- A stored telemetry reading (the fields set by `storeTelemetry`). -/
structure Reading where
  deviceId : ℕ
  serialNumber : String
  timestamp : ℕ
  data : Payload
  quality : String
  source : String
  mqttTopic : String
deriving DecidableEq, Repr

/-- The `quality` enum of the telemetry schema. -/
def qualityEnum : List String :=
  ["good", "fair", "poor", "error"]

/-- `telemetrySchema.statics.storeTelemetry`: builds the document and runs
`save()`, whose schema validation rejects a serial number that is not
exactly ten decimal digits and a quality outside the enum; `Except.error`
models the thrown `ValidationError`. -/
def storeTelemetry (deviceId : ℕ) (serialNumber : String) (timestamp : ℕ)
    (telemetryData : Payload) (quality source mqttTopic : String) :
    Except String Reading :=
  if !telemetrySerialValid serialNumber then
    .error "Telemetry validation failed: Serial number must be exactly 10 digits"
  else if !qualityEnum.contains quality then
    .error "Telemetry validation failed: invalid quality"
  else
    .ok { deviceId, serialNumber, timestamp, data := telemetryData, quality,
          source, mqttTopic }

/-! ## Ingestion pipeline (`backend/src/mqtt/client.js`) -/

/-- `Device.findOne({ serialNumber })`. -/
def findDevice (devices : List Device) (serial : String) : Option Device :=
  devices.find? (fun d => d.serialNumber == serial)

/-- Replace the device found by `findOne` after its `save()` (the serial
number is unique-indexed, so at most one entry matches). -/
def setFirst : List Device → String → Device → List Device
  | [], _, _ => []
  | d :: ds, serial, d' =>
    if d.serialNumber == serial then d' :: ds else d :: setFirst ds serial d'

/-- The observable effects of processing one telemetry message. -/
structure TelemetryEffects where
  /-- The stored reading, when `storeTelemetry` succeeded. -/
  reading : Option Reading
  /-- Whether `alertEngine.checkThresholds` was invoked. -/
  alertsEvaluated : Bool
  /-- Whether the `telemetry` fan-out event was emitted. -/
  fanout : Bool
  /-- Advisory warnings from the per-parameter validation loop. -/
  warnings : List String
  /-- The log line of the drop or caught error, when the message was dropped. -/
  dropLog : Option String
deriving DecidableEq, Repr

/-- `Parameter.getDeviceParameters(deviceId)`: this device's enabled
parameters. The query ends in `.lean()`, so the returned objects are plain
POJOs without schema methods — the same `.lean()` semantics modelled for
the alert engine below. The `(order, name)` sort is omitted: it only
permutes the list, and the loop below aborts at the first supplied field
in any order — no claim depends on which matching parameter throws. -/
def getDeviceParameters (params : List Parameter) (deviceId : ℕ) :
    List Parameter :=
  params.filter (fun p => p.deviceId == deviceId && p.enabled)

/-- The guard of the validation loop (client.js:103): the payload supplies
a value for this parameter and it is neither `undefined` nor `null`. -/
def fieldSupplied (telemetryData : Payload) (p : Parameter) : Bool :=
  match lookupField telemetryData p.name with
  | none => false
  | some .null => false
  | some _ => true

/-- The per-parameter validation loop of `handleTelemetry`
(client.js:100-109). Because `getDeviceParameters` returns `.lean()`
objects, the dispatch `param.validateValue(value)` at client.js:104 throws
a `TypeError` at the first enabled parameter whose name is supplied with a
non-null value; the advisory-warning branch (client.js:105-107) is
unreachable, so a completed loop has produced no warnings. -/
def validationLoop : List Parameter → Payload → Except String (List String)
  | [], _ => .ok []
  | p :: rest, telemetryData =>
    match lookupField telemetryData p.name with
    | none => validationLoop rest telemetryData
    | some .null => validationLoop rest telemetryData
    | some _ => .error "TypeError: param.validateValue is not a function"

/-- The validation loop throws somewhere: some enabled parameter of the
device has its name supplied in the payload with a non-null value. -/
def paramDispatchThrows (params : List Parameter) (deviceId : ℕ)
    (telemetryData : Payload) : Bool :=
  (getDeviceParameters params deviceId).any (fieldSupplied telemetryData)

/-- The Mongoose Date cast of `timestamp || new Date()` (client.js:115 and
`storeTelemetry`): falsy values (absent, `null`, 0, `false`, the empty
string) take the current time; a positive numeric epoch value is truncated
to integer milliseconds; other truthy values are modelled as a failing
cast, so the `save()` throws and the message is dropped. Two declared
approximations, both excluded from the theorems by hypothesis: the real
cast accepts valid ISO-8601 date strings (here every non-empty string
fails), and a negative numeric epoch is really cast to a pre-1970 date
(not representable in the `ℕ` timestamp). -/
def castTimestamp (v : Option JSValue) (now : ℕ) : Except String ℕ :=
  match v with
  | none => .ok now
  | some .null => .ok now
  | some (.bool b) =>
    if b then .error "CastError: Cast to date failed" else .ok now
  | some (.num q) =>
    if q = 0 then .ok now
    else if 0 < q then .ok q.floor.toNat
    else .error "CastError: Cast to date failed"
  | some (.str s) =>
    if s = "" then .ok now else .error "CastError: Cast to date failed"

/-- `handleTelemetry(serialNumber, payload)` in `backend/src/mqtt/client.js`,
returning its observable effects and the updated device registry; `now` is
the current epoch time in milliseconds. The whole body runs inside
`try/catch`: a `TypeError` from the validation loop's method dispatch, a
Date-cast failure, or a `storeTelemetry` validation rejection each end
processing with the message fully dropped. -/
def handleTelemetry (devices : List Device) (params : List Parameter)
    (serial : String) (payload : Payload) (now : ℕ) :
    TelemetryEffects × List Device :=
  if !validateSerialNumber serial then
    ({ reading := none, alertsEvaluated := false, fanout := false, warnings := [],
       dropLog := some "Invalid serial number format" }, devices)
  else
    match findDevice devices serial with
    | none =>
      ({ reading := none, alertsEvaluated := false, fanout := false, warnings := [],
         dropLog := some "Device not found" }, devices)
    | some device =>
      if !device.enabled then
        ({ reading := none, alertsEvaluated := false, fanout := false, warnings := [],
           dropLog := some "Device disabled" }, devices)
      else
        let telemetryData := payload.filter (fun kv => kv.1 != "timestamp")
        if telemetryData.isEmpty then
          ({ reading := none, alertsEvaluated := false, fanout := false, warnings := [],
             dropLog := some "Empty telemetry data" }, devices)
        else
          match validationLoop (getDeviceParameters params device.deviceId)
              telemetryData with
          | .error e =>
            ({ reading := none, alertsEvaluated := false, fanout := false,
               warnings := [], dropLog := some e }, devices)
          | .ok warnings =>
            match castTimestamp (lookupField payload "timestamp") now with
            | .error e =>
              ({ reading := none, alertsEvaluated := false, fanout := false,
                 warnings := warnings, dropLog := some e }, devices)
            | .ok ts =>
              match storeTelemetry device.deviceId serial ts telemetryData
                  "good" "mqtt" ("iot/devices/" ++ serial ++ "/telemetry") with
              | .error e =>
                ({ reading := none, alertsEvaluated := false, fanout := false,
                   warnings := warnings, dropLog := some e }, devices)
              | .ok r =>
                let device' := { device with status := "online", lastSeen := some now }
                ({ reading := some r, alertsEvaluated := true, fanout := true,
                   warnings := warnings, dropLog := none },
                 setFirst devices serial device')

/-- The observable effects of processing one status message. -/
structure StatusEffects where
  /-- Whether the device document was updated (the `save()` succeeded). -/
  updated : Bool
  /-- The payload of the `deviceStatus` fan-out event, when emitted. -/
  emitted : Option String
deriving DecidableEq, Repr

/-- `handleStatus(serialNumber, payload)`: `device.status = payload.status
|| 'online'` (any falsy status — absent or the empty string — defaults to
"online"), refresh `lastSeen`, `save()`. A status outside the schema enum
makes `save()` throw a `ValidationError`, caught by the handler, leaving the
registry unchanged. Non-string status values are not modelled. -/
def handleStatus (devices : List Device) (serial : String)
    (payloadStatus : Option String) (now : ℕ) :
    StatusEffects × List Device :=
  if !validateSerialNumber serial then
    ({ updated := false, emitted := none }, devices)
  else
    match findDevice devices serial with
    | none => ({ updated := false, emitted := none }, devices)
    | some device =>
      let newStatus :=
        match payloadStatus with
        | some s => if s == "" then "online" else s
        | none => "online"
      if deviceStatusEnum.contains newStatus then
        let device' := { device with status := newStatus, lastSeen := some now }
        ({ updated := true, emitted := some newStatus },
         setFirst devices serial device')
      else ({ updated := false, emitted := none }, devices)

/-- The message was fully dropped: no reading stored, registry untouched,
no alert evaluation, no fan-out. -/
@[reducible] def droppedT (result : TelemetryEffects × List Device)
    (devices : List Device) : Prop :=
  result.1.reading = none ∧ result.2 = devices ∧
    result.1.alertsEvaluated = false ∧ result.1.fanout = false

/-! ## Alert engine (`backend/src/services/alertEngine.js`) -/

/-- One entry created by `AlertLog.logAlert` (the denormalized fields). -/
structure AlertLogEntry where
  parameterName : String
  thresholdType : Option String
  thresholdValue : Option ℚ
  actualValue : Option JSValue
  message : Option String
  severity : String
deriving DecidableEq, Repr

/-- The log entry `triggerAlert` writes for a firing. -/
def mkAlertLog (a : Alert) (r : TriggerResult) (v : JSValue) : AlertLogEntry :=
  { parameterName := a.parameterName, thresholdType := r.thresholdType,
    thresholdValue := r.threshold, actualValue := some v,
    message := r.message, severity := a.severity }

/-- An element of the array `Alert.getActiveAlerts` returns. That query
uses `.lean()`, which yields plain objects without schema methods, so
invoking `shouldTrigger` on such a document throws a `TypeError`;
`methodsAvailable` models whether the method dispatch succeeds.
`logWriteFails` models `AlertLog.logAlert` throwing (persistence failure)
inside `triggerAlert`. -/
structure EngineAlert where
  alert : Alert
  methodsAvailable : Bool
  logWriteFails : Bool
deriving DecidableEq, Repr

/-- The call `alert.shouldTrigger(value)` inside the engine loop: a method
dispatch that throws when the document carries no methods. -/
def callShouldTrigger (now : ℚ) (ea : EngineAlert) (v : JSValue) :
    Except String TriggerResult :=
  if ea.methodsAvailable then .ok (shouldTrigger now ea.alert v)
  else .error "TypeError: alert.shouldTrigger is not a function"

/-- `AlertEngine.triggerAlert`: its whole body is wrapped in `try/catch`,
so a failing log write swallows the error and leaves the log list
unchanged; failures after the write (notification, `recordTrigger`) are
likewise confined and keep the written entry. -/
def triggerAlertStep (ea : EngineAlert) (v : JSValue) (r : TriggerResult)
    (logs : List AlertLogEntry) : List AlertLogEntry :=
  if ea.logWriteFails then logs else logs ++ [mkAlertLog ea.alert r v]

/-- The `for (const alert of alerts)` loop of `checkThresholds`, without the
surrounding `try/catch`: returns the alert logs written so far and the
exception that escaped the loop, if any. Absent (`undefined`) and `null`
field values are skipped by the `continue` guard. -/
def checkThresholdsLoop (now : ℚ) (fieldMap : Payload) :
    List EngineAlert → List AlertLogEntry → List AlertLogEntry × Option String
  | [], logs => (logs, none)
  | ea :: rest, logs =>
    match lookupField fieldMap ea.alert.parameterName with
    | none => checkThresholdsLoop now fieldMap rest logs
    | some .null => checkThresholdsLoop now fieldMap rest logs
    | some v =>
      match callShouldTrigger now ea v with
      | .error e => (logs, some e)
      | .ok r =>
        let logs' := if r.shouldTrigger then triggerAlertStep ea v r logs else logs
        checkThresholdsLoop now fieldMap rest logs'

/-- `AlertEngine.checkThresholds(deviceId, serialNumber, telemetryData)`:
the loop inside the outer `try/catch`, which logs and swallows any escaped
exception, returning the alert logs written before it. -/
def checkThresholds (now : ℚ) (alerts : List EngineAlert)
    (fieldMap : Payload) : List AlertLogEntry :=
  (checkThresholdsLoop now fieldMap alerts []).1

/-- One loop iteration on a plain (method-carrying) alert document, as a
fold step: skip absent/null values, otherwise evaluate and, on a firing,
run `triggerAlert`. -/
def perAlertLogs (now : ℚ) (fieldMap : Payload)
    (logs : List AlertLogEntry) (ea : EngineAlert) : List AlertLogEntry :=
  match lookupField fieldMap ea.alert.parameterName with
  | none => logs
  | some .null => logs
  | some v =>
    let r := shouldTrigger now ea.alert v
    if r.shouldTrigger then triggerAlertStep ea v r logs else logs

/-! ## Rule firing and cooldown as a state machine

One qualifying reading evaluated against one rule, mirroring what the
engine does per rule when the alert document carries its methods: evaluate
`shouldTrigger`, and on a firing write one alert log and `recordTrigger`. -/

/-- Evaluate one reading `(time, numeric value)` against a rule, threading
the rule state and the alert-log store. -/
def evalReading (p : Alert × List AlertLogEntry) (tv : ℚ × ℚ) :
    Alert × List AlertLogEntry :=
  let r := shouldTrigger tv.1 p.1 (.num tv.2)
  if r.shouldTrigger then
    (recordTrigger tv.1 p.1, p.2 ++ [mkAlertLog p.1 r (.num tv.2)])
  else p

/-! ## Telemetry aggregation (`telemetrySchema.statics.getAggregatedParameter`) -/

/-- The `intervalMap` lookup table (milliseconds per bucket). -/
def intervalMap (tag : String) : Option ℕ :=
  if tag == "5m" then some (5 * 60 * 1000)
  else if tag == "15m" then some (15 * 60 * 1000)
  else if tag == "1h" then some (60 * 60 * 1000)
  else if tag == "6h" then some (6 * 60 * 60 * 1000)
  else if tag == "1d" then some (24 * 60 * 60 * 1000)
  else none

/-- `intervalMap[interval] || intervalMap['1h']`. -/
def intervalMsOf (tag : String) : ℕ :=
  (intervalMap tag).getD (60 * 60 * 1000)

/-- The `$match` time-range condition (`$gte`/`$lte`, both inclusive, each
applied only when the bound is given). -/
def tsInRange (startT endT : Option ℕ) (ts : ℕ) : Bool :=
  (match startT with | some s => decide (s ≤ ts) | none => true) &&
  (match endT with | some e => decide (ts ≤ e) | none => true)

/-- The document-level filter of the pipeline: device match, time range,
and the second `$match` requiring `parameterValue` to exist and be
non-null. -/
def aggMatch (deviceId : ℕ) (p : String) (startT endT : Option ℕ)
    (r : Reading) : Bool :=
  r.deviceId == deviceId && tsInRange startT endT r.timestamp &&
    (match lookupField r.data p with
     | none => false
     | some .null => false
     | some _ => true)

/-- The readings that survive both `$match` stages. -/
def aggIncluded (readings : List Reading) (deviceId : ℕ) (p : String)
    (startT endT : Option ℕ) : List Reading :=
  readings.filter (aggMatch deviceId p startT endT)

/-- The `intervalBucket` field: `toLong(timestamp) - toLong(timestamp) %
intervalMs` (epoch-aligned bucket start). -/
def bucketStart (intervalMs ts : ℕ) : ℕ :=
  ts - ts % intervalMs

/-- The numeric values of the named field over a reading group; `$avg`,
`$min` and `$max` aggregate these (they ignore non-numeric values — the
cross-type BSON ordering of `$min`/`$max` over mixed-type data is not
modelled, and the aggregation theorem assumes numeric field values). -/
def fieldNums (rs : List Reading) (p : String) : List ℚ :=
  rs.filterMap (fun r =>
    match lookupField r.data p with
    | some (.num q) => some q
    | _ => none)

/-- One output bucket of the aggregation pipeline. -/
structure AggBucket where
  timestamp : ℕ
  avg : Option ℚ
  min : Option ℚ
  max : Option ℚ
  count : ℕ
deriving DecidableEq, Repr

/-- The `$group` accumulators over the readings of one bucket, with the
final `results.map` renaming `_id` back to a timestamp. -/
def mkBucket (p : String) (k : ℕ) (rs : List Reading) : AggBucket :=
  let ns := fieldNums rs p
  { timestamp := k,
    avg := if ns.isEmpty then none else some (ns.sum / ns.length),
    min := ns.min?,
    max := ns.max?,
    count := rs.length }

/-- `telemetrySchema.statics.getAggregatedParameter(deviceId, parameterName,
startTime, endTime, interval)`: match, bucket by epoch-aligned start,
group with `$avg`/`$min`/`$max`/`$sum:1`, and `$sort` ascending on the
bucket key (`$group` is modelled as key-partitioning; the sort on the
distinct keys determines the output order). -/
def getAggregatedParameter (readings : List Reading) (deviceId : ℕ)
    (p : String) (startT endT : Option ℕ) (interval : String) :
    List AggBucket :=
  let m := intervalMsOf interval
  let included := aggIncluded readings deviceId p startT endT
  let keys := (included.map (fun r => bucketStart m r.timestamp)).dedup
  let sortedKeys := keys.insertionSort (· ≤ ·)
  sortedKeys.map (fun k =>
    mkBucket p k (included.filter (fun r => bucketStart m r.timestamp == k)))

/-! ## Concrete fixtures used by witnesses and counterexamples -/

/-- A rule with an enabled upper threshold of 100, no lower threshold and a
300-second cooldown, never triggered. -/
def exAlert : Alert :=
  { parameterName := "temperature", enabled := true,
    upperThreshold := { value := some 100, enabled := true },
    lowerThreshold := { value := none, enabled := false },
    cooldownPeriod := 300, lastTriggered := none, triggerCount := 0,
    severity := "high" }

/-- The same rule after a firing at time 0. -/
def exAlertFired : Alert :=
  { exAlert with lastTriggered := some 0 }

/-- A registered, enabled device with a ten-digit serial, currently in the
"error" state. -/
def exDevice : Device :=
  { deviceId := 7, serialNumber := "1234567890", enabled := true,
    status := "error", lastSeen := none }

/-- An enabled temperature parameter (float, range -50..150) defined on
`exDevice`, as `createDefaultParameters` would create it. -/
def exParamTemp : Parameter :=
  { deviceId := 7, name := "temperature", dataType := .float,
    minValue := some (-50), maxValue := some 150, enabled := true }

/-- Example reading at 00:05 with field x = 10. -/
def exReading1 : Reading :=
  { deviceId := 1, serialNumber := "1234567890", timestamp := 300000,
    data := [("x", .num 10)], quality := "good", source := "mqtt",
    mqttTopic := "iot/devices/1234567890/telemetry" }

/-- Example reading at 00:55 with field x = 20. -/
def exReading2 : Reading :=
  { exReading1 with timestamp := 3300000, data := [("x", .num 20)] }

/-- Example reading at 01:05 with field x = 30. -/
def exReading3 : Reading :=
  { exReading1 with timestamp := 3900000, data := [("x", .num 30)] }

/-- An active-alert document as returned by `.lean()`: no schema methods. -/
def exEngineBad : EngineAlert :=
  { alert := { exAlert with parameterName := "a" },
    methodsAvailable := false, logWriteFails := false }

/-- An active-alert document that does carry its schema methods. -/
def exEngineGood : EngineAlert :=
  { alert := { exAlert with parameterName := "a" },
    methodsAvailable := true, logWriteFails := false }

/-! ## Helper lemmas for `shouldTrigger` -/

theorem shouldTrigger_disabled (now : ℚ) (a : Alert) (v : JSValue)
    (h : a.enabled = false) :
    shouldTrigger now a v = { shouldTrigger := false, reason := some "Alert disabled" } := by
  simp [shouldTrigger, h]

theorem shouldTrigger_cooldown (now : ℚ) (a : Alert) (v : JSValue) (t : ℚ)
    (he : a.enabled = true) (ht : a.lastTriggered = some t)
    (hc : (now - t) / 1000 < a.cooldownPeriod) :
    shouldTrigger now a v =
      { shouldTrigger := false, reason := some "Cooldown period active",
        remainingCooldown := some (a.cooldownPeriod - (now - t) / 1000) } := by
  simp [shouldTrigger, he, ht, hc]

theorem shouldTrigger_open (now : ℚ) (a : Alert) (v : JSValue)
    (he : a.enabled = true) (hc : cooldownActive now a = false) :
    shouldTrigger now a v = upperCheck a v := by
  unfold shouldTrigger
  rw [he]
  cases ht : a.lastTriggered with
  | none => rfl
  | some t =>
    unfold cooldownActive at hc
    rw [ht] at hc
    simp only [decide_eq_false_iff_not] at hc
    simp [hc]

theorem shouldTrigger_suppressed (now : ℚ) (a : Alert) (v : JSValue) (t : ℚ)
    (ht : a.lastTriggered = some t)
    (hc : (now - t) / 1000 < a.cooldownPeriod) :
    (shouldTrigger now a v).shouldTrigger = false := by
  cases he : a.enabled with
  | false => rw [shouldTrigger_disabled now a v he]
  | true => rw [shouldTrigger_cooldown now a v t he ht hc]

theorem upperCheck_fires (a : Alert) (v u : ℚ)
    (he : a.upperThreshold.enabled = true)
    (hv : a.upperThreshold.value = some u) (hgt : u < v) :
    upperCheck a (.num v) =
      { shouldTrigger := true, thresholdType := some "upper",
        threshold := some u, value := some (.num v),
        message := some (a.parameterName ++ " exceeded upper threshold: " ++
          (JSValue.num v).render ++ " > " ++ toString u) } := by
  simp [upperCheck, he, hv, jsGtQ, toNumber, hgt]

theorem upperCheck_pass (a : Alert) (v : ℚ)
    (h : upperFires a v = false) :
    upperCheck a (.num v) = lowerCheck a (.num v) := by
  unfold upperFires at h
  unfold upperCheck
  cases he : a.upperThreshold.enabled with
  | false => rfl
  | true =>
    rw [he] at h
    cases hv : a.upperThreshold.value with
    | none => rfl
    | some u =>
      rw [hv] at h
      simp only [Bool.true_and, decide_eq_false_iff_not] at h
      simp [jsGtQ, toNumber, h]

theorem lowerCheck_fires (a : Alert) (v l : ℚ)
    (he : a.lowerThreshold.enabled = true)
    (hv : a.lowerThreshold.value = some l) (hlt : v < l) :
    lowerCheck a (.num v) =
      { shouldTrigger := true, thresholdType := some "lower",
        threshold := some l, value := some (.num v),
        message := some (a.parameterName ++ " below lower threshold: " ++
          (JSValue.num v).render ++ " < " ++ toString l) } := by
  simp [lowerCheck, he, hv, jsLtQ, toNumber, hlt]

theorem lowerCheck_pass (a : Alert) (v : ℚ)
    (h : lowerFires a v = false) :
    lowerCheck a (.num v) =
      { shouldTrigger := false, reason := some "Within thresholds" } := by
  unfold lowerFires at h
  unfold lowerCheck
  cases he : a.lowerThreshold.enabled with
  | false => rfl
  | true =>
    rw [he] at h
    cases hv : a.lowerThreshold.value with
    | none => rfl
    | some l =>
      rw [hv] at h
      simp only [Bool.true_and, decide_eq_false_iff_not] at h
      simp [jsLtQ, toNumber, h]

theorem upperFires_elim (a : Alert) (v : ℚ) (h : upperFires a v = true) :
    a.upperThreshold.enabled = true ∧
      ∃ u, a.upperThreshold.value = some u ∧ u < v := by
  unfold upperFires at h
  refine ⟨(Bool.and_eq_true_iff.mp h).1, ?_⟩
  have h2 := (Bool.and_eq_true_iff.mp h).2
  rcases hv : a.upperThreshold.value with _ | u
  · rw [hv] at h2; exact absurd h2 (by simp)
  · rw [hv] at h2
    simp only [decide_eq_true_eq] at h2
    exact ⟨u, rfl, h2⟩

theorem lowerFires_elim (a : Alert) (v : ℚ) (h : lowerFires a v = true) :
    a.lowerThreshold.enabled = true ∧
      ∃ l, a.lowerThreshold.value = some l ∧ v < l := by
  unfold lowerFires at h
  refine ⟨(Bool.and_eq_true_iff.mp h).1, ?_⟩
  have h2 := (Bool.and_eq_true_iff.mp h).2
  rcases hv : a.lowerThreshold.value with _ | l
  · rw [hv] at h2; exact absurd h2 (by simp)
  · rw [hv] at h2
    simp only [decide_eq_true_eq] at h2
    exact ⟨l, rfl, h2⟩

theorem shouldTrigger_of_upperFires (now : ℚ) (a : Alert) (v : ℚ)
    (he : a.enabled = true) (hc : cooldownActive now a = false)
    (hu : upperFires a v = true) :
    (shouldTrigger now a (.num v)).shouldTrigger = true ∧
    (shouldTrigger now a (.num v)).thresholdType = some "upper" ∧
    (shouldTrigger now a (.num v)).threshold = a.upperThreshold.value := by
  obtain ⟨hen, u, hv, hgt⟩ := upperFires_elim a v hu
  rw [shouldTrigger_open now a _ he hc, upperCheck_fires a v u hen hv hgt]
  exact ⟨rfl, rfl, hv.symm⟩

theorem shouldTrigger_of_lowerFires (now : ℚ) (a : Alert) (v : ℚ)
    (he : a.enabled = true) (hc : cooldownActive now a = false)
    (hu : upperFires a v = false) (hl : lowerFires a v = true) :
    (shouldTrigger now a (.num v)).shouldTrigger = true ∧
    (shouldTrigger now a (.num v)).thresholdType = some "lower" ∧
    (shouldTrigger now a (.num v)).threshold = a.lowerThreshold.value := by
  obtain ⟨hen, l, hv, hlt⟩ := lowerFires_elim a v hl
  rw [shouldTrigger_open now a _ he hc, upperCheck_pass a v hu,
    lowerCheck_fires a v l hen hv hlt]
  exact ⟨rfl, rfl, hv.symm⟩

theorem shouldTrigger_of_qualifies (now : ℚ) (a : Alert) (v : ℚ)
    (he : a.enabled = true) (hc : cooldownActive now a = false)
    (hq : (upperFires a v || lowerFires a v) = true) :
    (shouldTrigger now a (.num v)).shouldTrigger = true := by
  cases hu : upperFires a v with
  | true => exact (shouldTrigger_of_upperFires now a v he hc hu).1
  | false =>
    rcases Bool.or_eq_true_iff.mp hq with h | hl
    · exact absurd h (by simp [hu])
    · exact (shouldTrigger_of_lowerFires now a v he hc hu hl).1

/-! ## Claim C1 -/

/-- C1: `shouldTrigger` follows exactly this decision order on a numeric
candidate value: a disabled rule never triggers; an active cooldown
suppresses any trigger; otherwise an enabled upper threshold (with a value)
strictly exceeded triggers with thresholdType "upper" — checked before the
lower threshold, so it wins even if the lower condition also holds; else an
enabled lower threshold (with a value) strictly undercut triggers with
thresholdType "lower"; else no trigger. The single returned record gives at
most one trigger per rule per reading. -/
theorem c1_shouldTrigger_decision_order (now : ℚ) (a : Alert) (v : ℚ) :
    (a.enabled = false → (shouldTrigger now a (.num v)).shouldTrigger = false)
  ∧ (a.enabled = true → cooldownActive now a = true →
      (shouldTrigger now a (.num v)).shouldTrigger = false)
  ∧ (a.enabled = true → cooldownActive now a = false → upperFires a v = true →
      (shouldTrigger now a (.num v)).shouldTrigger = true ∧
      (shouldTrigger now a (.num v)).thresholdType = some "upper" ∧
      (shouldTrigger now a (.num v)).threshold = a.upperThreshold.value)
  ∧ (a.enabled = true → cooldownActive now a = false → upperFires a v = false →
      lowerFires a v = true →
      (shouldTrigger now a (.num v)).shouldTrigger = true ∧
      (shouldTrigger now a (.num v)).thresholdType = some "lower" ∧
      (shouldTrigger now a (.num v)).threshold = a.lowerThreshold.value)
  ∧ (a.enabled = true → cooldownActive now a = false → upperFires a v = false →
      lowerFires a v = false →
      (shouldTrigger now a (.num v)).shouldTrigger = false) := by
  refine ⟨fun h => ?_, fun he hc => ?_, fun he hc hu => ?_, fun he hc hu hl => ?_,
    fun he hc hu hl => ?_⟩
  · rw [shouldTrigger_disabled now a _ h]
  · unfold cooldownActive at hc
    rcases ht : a.lastTriggered with _ | t
    · rw [ht] at hc; exact absurd hc (by simp)
    · rw [ht] at hc
      simp only [decide_eq_true_eq] at hc
      rw [shouldTrigger_cooldown now a _ t he ht hc]
  · exact shouldTrigger_of_upperFires now a v he hc hu
  · exact shouldTrigger_of_lowerFires now a v he hc hu hl
  · rw [shouldTrigger_open now a _ he hc, upperCheck_pass a v hu,
      lowerCheck_pass a v hl]

/-- Witness for C1: the rule with an enabled upper threshold of 100 fires
with thresholdType "upper" on the value 101 when no cooldown is active. -/
theorem c1_witness :
    (shouldTrigger 0 exAlert (.num 101)).shouldTrigger = true ∧
    (shouldTrigger 0 exAlert (.num 101)).thresholdType = some "upper" ∧
    (shouldTrigger 0 exAlert (.num 101)).threshold = exAlert.upperThreshold.value :=
  (c1_shouldTrigger_decision_order 0 exAlert 101).2.2.1 rfl rfl (by decide)

/-! ## Claim C4 -/

/-- C4: once a rule has fired at time `t` (so `recordTrigger` left
`lastTriggered = t`), evaluating any sequence of readings whose times `t1`
all satisfy `(t1 - t) / 1000 < cooldownPeriod` leaves the rule state and
the alert-log store unchanged — no new Alert Log, regardless of how many
qualifying readings arrive; and a single qualifying reading evaluated once
the cooldown has elapsed appends exactly one new Alert Log and records the
trigger. -/
theorem c4_cooldown_window (a : Alert) (t : ℚ) (logs : List AlertLogEntry)
    (hfired : a.lastTriggered = some t) :
    (∀ rs : List (ℚ × ℚ), (∀ x ∈ rs, (x.1 - t) / 1000 < a.cooldownPeriod) →
        List.foldl evalReading (a, logs) rs = (a, logs))
  ∧ (∀ tnow v, a.cooldownPeriod ≤ (tnow - t) / 1000 → qualifies a v = true →
        evalReading (a, logs) (tnow, v) =
          (recordTrigger tnow a,
           logs ++ [mkAlertLog a (shouldTrigger tnow a (.num v)) (.num v)])) := by
  constructor
  · intro rs
    induction rs generalizing logs with
    | nil => intro _; rfl
    | cons x xs ih =>
      intro hall
      have hstep : evalReading (a, logs) x = (a, logs) := by
        have hsupp := shouldTrigger_suppressed x.1 a (.num x.2) t hfired (hall x (by simp))
        simp [evalReading, hsupp]
      rw [List.foldl_cons, hstep]
      exact ih logs (fun y hy => hall y (by simp [hy]))
  · intro tnow v hge hq
    have he : a.enabled = true := (Bool.and_eq_true_iff.mp hq).1
    have hc : cooldownActive tnow a = false := by
      unfold cooldownActive
      rw [hfired]
      simp only [decide_eq_false_iff_not, not_lt]
      exact hge
    have hfire : (shouldTrigger tnow a (.num v)).shouldTrigger = true :=
      shouldTrigger_of_qualifies tnow a v he hc (Bool.and_eq_true_iff.mp hq).2
    simp [evalReading, hfire]

/-- Witness for C4: after a firing at time 0 with a 300 s cooldown, two
qualifying readings at 1 s and 299 s change nothing; a qualifying reading
at 301 s appends exactly one alert log and records the trigger. -/
theorem c4_witness :
    List.foldl evalReading (exAlertFired, ([] : List AlertLogEntry))
      [(1000, 101), (299000, 150)] = (exAlertFired, []) ∧
    evalReading (exAlertFired, []) (301000, 101) =
      (recordTrigger 301000 exAlertFired,
       [] ++ [mkAlertLog exAlertFired
         (shouldTrigger 301000 exAlertFired (.num 101)) (.num 101)]) :=
  ⟨(c4_cooldown_window exAlertFired 0 [] rfl).1 [(1000, 101), (299000, 150)]
     (by intro x hx; fin_cases hx <;> norm_num [exAlertFired, exAlert]),
   (c4_cooldown_window exAlertFired 0 [] rfl).2 301000 101
     (by norm_num [exAlertFired, exAlert]) (by decide)⟩

/-! ## Claim C9 -/

/-- C9: the device schema's `serialNumber` field validator (applied at
registration) and the static `Device.validateSerialNumber` (applied to
inbound MQTT messages) are the same regular expression
`/^[a-zA-Z0-9_]+$/` — they accept exactly the same strings. -/
theorem c9_serial_validators_agree (s : String) :
    serialFieldValidator s = validateSerialNumber s := rfl

/-! ## Claim C7 -/

/-- C7: `validateValue` type checks: boolean-typed parameters reject
non-booleans; integer and unsigned_integer reject non-integers and
unsigned_integer additionally rejects negative integers; float types
reject non-numbers; string rejects non-strings. A type failure returns
immediately, so range checks run only after the type check passes and only
when the corresponding bound is non-null, rejecting with a message citing
the bound; otherwise the value is valid. -/
theorem c7_validateValue_spec (p : Parameter) (v : JSValue) :
    (p.dataType = .boolean → isBoolVal v = false →
      validateValue p v = { valid := false, error := some "Value must be boolean" })
  ∧ ((p.dataType = .integer ∨ p.dataType = .unsigned_integer) →
      isIntegerNum v = false →
      validateValue p v = { valid := false, error := some "Value must be an integer" })
  ∧ (p.dataType = .unsigned_integer → ∀ q : ℚ, v = .num q → q.den = 1 → q < 0 →
      validateValue p v = { valid := false, error := some "Value must be non-negative" })
  ∧ ((p.dataType = .float ∨ p.dataType = .sfloat) → isNumVal v = false →
      validateValue p v = { valid := false, error := some "Value must be a number" })
  ∧ (p.dataType = .string → isStrVal v = false →
      validateValue p v = { valid := false, error := some "Value must be a string" })
  ∧ (∀ e, typeCheckError p.dataType v = some e →
      validateValue p v = { valid := false, error := some e })
  ∧ (typeCheckError p.dataType v = none → ∀ m, p.minValue = some m →
      jsLtQ v m = true →
      validateValue p v =
        { valid := false, error := some ("Value must be >= " ++ toString m) })
  ∧ (typeCheckError p.dataType v = none →
      (∀ m, p.minValue = some m → jsLtQ v m = false) →
      ∀ m, p.maxValue = some m → jsGtQ v m = true →
      validateValue p v =
        { valid := false, error := some ("Value must be <= " ++ toString m) })
  ∧ (typeCheckError p.dataType v = none →
      (∀ m, p.minValue = some m → jsLtQ v m = false) →
      (∀ m, p.maxValue = some m → jsGtQ v m = false) →
      validateValue p v = { valid := true, error := none }) := by
  refine ⟨?_, ?_, ?_, ?_, ?_, ?_, ?_, ?_, ?_⟩
  · intro h1 h2
    simp [validateValue, typeCheckError, h1, h2]
  · rintro (h1 | h1) h2 <;> simp [validateValue, typeCheckError, h1, h2]
  · rintro h1 q rfl hden hneg
    simp [validateValue, typeCheckError, h1, isIntegerNum, hden, jsLtQ, toNumber, hneg]
  · rintro (h1 | h1) h2 <;> simp [validateValue, typeCheckError, h1, h2]
  · intro h1 h2
    simp [validateValue, typeCheckError, h1, h2]
  · intro e he
    simp [validateValue, he]
  · intro h0 m hm hlt
    simp [validateValue, h0, rangeCheck, hm, hlt]
  · intro h0 hminok m hM hgt
    rcases hmin : p.minValue with _ | m0
    · simp [validateValue, h0, rangeCheck, rangeMaxCheck, hmin, hM, hgt]
    · simp [validateValue, h0, rangeCheck, rangeMaxCheck, hmin, hM, hgt,
        hminok m0 hmin]
  · intro h0 hminok hmaxok
    rcases hmin : p.minValue with _ | m0 <;>
      rcases hmax : p.maxValue with _ | m1
    · simp [validateValue, h0, rangeCheck, rangeMaxCheck, hmin, hmax]
    · simp [validateValue, h0, rangeCheck, rangeMaxCheck, hmin, hmax,
        hmaxok m1 hmax]
    · simp [validateValue, h0, rangeCheck, rangeMaxCheck, hmin, hmax,
        hminok m0 hmin]
    · simp [validateValue, h0, rangeCheck, rangeMaxCheck, hmin, hmax,
        hminok m0 hmin, hmaxok m1 hmax]

/-- Witness for C7: the spec's examples — -5 is invalid for
unsigned_integer, 5.5 is invalid for integer, and 50 is valid against
bounds 0..100 on a float parameter. -/
theorem c7_witness :
    validateValue
        { deviceId := 1, name := "x", dataType := .unsigned_integer,
          minValue := none, maxValue := none, enabled := true } (.num (-5)) =
      { valid := false, error := some "Value must be non-negative" } ∧
    validateValue
        { deviceId := 1, name := "x", dataType := .integer,
          minValue := none, maxValue := none, enabled := true } (.num (mkRat 11 2)) =
      { valid := false, error := some "Value must be an integer" } ∧
    validateValue
        { deviceId := 1, name := "x", dataType := .float,
          minValue := some 0, maxValue := some 100, enabled := true } (.num 50) =
      { valid := true, error := none } :=
  ⟨(c7_validateValue_spec _ (.num (-5))).2.2.1 rfl (-5) rfl (by decide) (by decide),
   (c7_validateValue_spec _ (.num (mkRat 11 2))).2.1 (Or.inl rfl) (by decide),
   (c7_validateValue_spec _ (.num 50)).2.2.2.2.2.2.2.2 (by decide)
     (by intro m hm; cases hm; decide) (by intro m hm; cases hm; decide)⟩

/-! ## Helper lemmas for the ingestion pipeline -/

theorem storeTelemetry_invalid_serial (deviceId : ℕ) (serial : String) (ts : ℕ)
    (data : Payload) (quality src topic : String)
    (h : telemetrySerialValid serial = false) :
    storeTelemetry deviceId serial ts data quality src topic =
      .error "Telemetry validation failed: Serial number must be exactly 10 digits" := by
  simp [storeTelemetry, h]

theorem storeTelemetry_good (deviceId : ℕ) (serial : String) (ts : ℕ)
    (data : Payload) (src topic : String)
    (h : telemetrySerialValid serial = true) :
    storeTelemetry deviceId serial ts data "good" src topic =
      .ok { deviceId, serialNumber := serial, timestamp := ts, data,
            quality := "good", source := src, mqttTopic := topic } := by
  have hq : qualityEnum.contains "good" = true := by decide
  have hq2 : "good" ∈ qualityEnum := by decide
  simp [storeTelemetry, h, hq, hq2]

/-- The validation loop either throws at some supplied parameter or
completes having produced no warnings. -/
theorem validationLoop_eq (ps : List Parameter) (telemetryData : Payload) :
    validationLoop ps telemetryData =
      if ps.any (fieldSupplied telemetryData) then
        .error "TypeError: param.validateValue is not a function"
      else .ok [] := by
  induction ps with
  | nil => rfl
  | cons p rest ih =>
    cases hv : lookupField telemetryData p.name with
    | none => simp [validationLoop, hv, List.any_cons, fieldSupplied, ih]
    | some v =>
      cases v with
      | null => simp [validationLoop, hv, List.any_cons, fieldSupplied, ih]
      | num q => simp [validationLoop, hv, List.any_cons, fieldSupplied]
      | bool b => simp [validationLoop, hv, List.any_cons, fieldSupplied]
      | str s => simp [validationLoop, hv, List.any_cons, fieldSupplied]

/-- On payloads whose timestamp field, when present, is null or a
non-negative number, the Date cast always succeeds. -/
theorem castTimestamp_ok (payload : Payload) (now : ℕ)
    (htime : ∀ v, lookupField payload "timestamp" = some v →
      v = JSValue.null ∨ ∃ q, v = JSValue.num q ∧ 0 ≤ q) :
    ∃ ts, castTimestamp (lookupField payload "timestamp") now = .ok ts := by
  cases hv : lookupField payload "timestamp" with
  | none => exact ⟨now, rfl⟩
  | some v =>
    rcases htime v hv with rfl | ⟨q, rfl, hq⟩
    · exact ⟨now, rfl⟩
    · by_cases h0 : q = 0
      · exact ⟨now, by simp [castTimestamp, h0]⟩
      · have hpos : 0 < q := lt_of_le_of_ne hq (Ne.symm h0)
        exact ⟨q.floor.toNat, by simp [castTimestamp, h0, hpos]⟩

/-- Under the four pipeline acceptance conditions, `handleTelemetry`
reduces to the chain: validation-loop dispatch, Date cast, then the
`storeTelemetry` save. -/
theorem handleTelemetry_accepted (devices : List Device)
    (params : List Parameter) (serial : String) (payload : Payload) (now : ℕ)
    (h1 : validateSerialNumber serial = true)
    (d : Device) (hd : findDevice devices serial = some d)
    (hen : d.enabled = true)
    (hne : payload.filter (fun kv => kv.1 != "timestamp") ≠ []) :
    handleTelemetry devices params serial payload now =
      match validationLoop (getDeviceParameters params d.deviceId)
          (payload.filter (fun kv => kv.1 != "timestamp")) with
      | .error e =>
        ({ reading := none, alertsEvaluated := false, fanout := false,
           warnings := [], dropLog := some e }, devices)
      | .ok warnings =>
        match castTimestamp (lookupField payload "timestamp") now with
        | .error e =>
          ({ reading := none, alertsEvaluated := false, fanout := false,
             warnings := warnings, dropLog := some e }, devices)
        | .ok ts =>
          match storeTelemetry d.deviceId serial ts
              (payload.filter (fun kv => kv.1 != "timestamp")) "good" "mqtt"
              ("iot/devices/" ++ serial ++ "/telemetry") with
          | .error e =>
            ({ reading := none, alertsEvaluated := false, fanout := false,
               warnings := warnings, dropLog := some e }, devices)
          | .ok r =>
            ({ reading := some r, alertsEvaluated := true, fanout := true,
               warnings := warnings, dropLog := none },
             setFirst devices serial { d with status := "online", lastSeen := some now }) := by
  have hempty : (payload.filter (fun kv => kv.1 != "timestamp")).isEmpty = false := by
    cases hl : payload.filter (fun kv => kv.1 != "timestamp") with
    | nil => exact absurd hl hne
    | cons x xs => rfl
  simp only [handleTelemetry, h1, hd, hen, hempty, Bool.not_true, Bool.false_eq_true,
    if_false, Bool.not_false]

/-! ## Claim C10 -/

/-- C10: the telemetry store imposes its own 10-decimal-digit serial
validator. A serial number that passes the ingestion format check (any
non-empty word-character string) but is not exactly ten digits makes
`storeTelemetry` fail schema validation, so even when every pipeline drop
condition passes — registered enabled device, non-empty payload — no
reading is persisted, no device update, no alert evaluation, no fan-out. -/
theorem c10_store_serial_validator_mismatch (devices : List Device)
    (params : List Parameter) (serial : String) (payload : Payload) (now : ℕ)
    (h1 : validateSerialNumber serial = true)
    (h2 : telemetrySerialValid serial = false)
    (d : Device) (hd : findDevice devices serial = some d)
    (hen : d.enabled = true)
    (hne : payload.filter (fun kv => kv.1 != "timestamp") ≠ []) :
    (∀ deviceId ts data quality src topic,
        storeTelemetry deviceId serial ts data quality src topic =
          .error "Telemetry validation failed: Serial number must be exactly 10 digits")
  ∧ (handleTelemetry devices params serial payload now).1.reading = none
  ∧ (handleTelemetry devices params serial payload now).2 = devices
  ∧ (handleTelemetry devices params serial payload now).1.alertsEvaluated = false
  ∧ (handleTelemetry devices params serial payload now).1.fanout = false := by
  have hred := handleTelemetry_accepted devices params serial payload now h1 d hd hen hne
  have hst : ∀ dI ts data quality src topic,
      storeTelemetry dI serial ts data quality src topic =
        .error "Telemetry validation failed: Serial number must be exactly 10 digits" :=
    fun dI ts data quality src topic =>
      storeTelemetry_invalid_serial dI serial ts data quality src topic h2
  refine ⟨hst, ?_, ?_, ?_, ?_⟩ <;>
  · rw [hred]
    cases validationLoop (getDeviceParameters params d.deviceId)
        (payload.filter (fun kv => kv.1 != "timestamp")) with
    | error e => rfl
    | ok w =>
      cases castTimestamp (lookupField payload "timestamp") now with
      | error e => rfl
      | ok ts => simp only [hst]

/-- Witness for C10: serial "sensor_1" passes ingestion validation but is
not ten digits; with a registered enabled device and a non-empty payload,
the pipeline stores nothing and leaves the registry untouched. -/
theorem c10_witness :
    (handleTelemetry
        [{ deviceId := 3, serialNumber := "sensor_1", enabled := true,
           status := "offline", lastSeen := none }] []
        "sensor_1" [("temperature", .num 25)] 0).1.reading = none ∧
    (handleTelemetry
        [{ deviceId := 3, serialNumber := "sensor_1", enabled := true,
           status := "offline", lastSeen := none }] []
        "sensor_1" [("temperature", .num 25)] 0).2 =
      [{ deviceId := 3, serialNumber := "sensor_1", enabled := true,
         status := "offline", lastSeen := none }] :=
  have h := c10_store_serial_validator_mismatch
    [{ deviceId := 3, serialNumber := "sensor_1", enabled := true,
       status := "offline", lastSeen := none }] []
    "sensor_1" [("temperature", .num 25)] 0 (by decide) (by decide)
    { deviceId := 3, serialNumber := "sensor_1", enabled := true,
      status := "offline", lastSeen := none } (by decide) rfl (by decide)
  ⟨h.2.1, h.2.2.1⟩

/-! ## Claim C2 -/

/-- Counterexample to C2 as stated: for serial "abc" (passes format
validation, device registered and enabled, non-empty payload, no
parameters defined) none of the four claimed drop conditions holds, yet
the message is fully dropped — the telemetry store's own ten-digit serial
validator rejects the save. -/
theorem c2_counterexample :
    validateSerialNumber "abc" = true ∧
    findDevice
      [{ deviceId := 4, serialNumber := "abc", enabled := true,
         status := "offline", lastSeen := none }] "abc" =
      some { deviceId := 4, serialNumber := "abc", enabled := true,
             status := "offline", lastSeen := none } ∧
    [(("humidity" : String), JSValue.num 60)].filter
      (fun kv => kv.1 != "timestamp") ≠ [] ∧
    droppedT
      (handleTelemetry
        [{ deviceId := 4, serialNumber := "abc", enabled := true,
           status := "offline", lastSeen := none }] []
        "abc" [("humidity", .num 60)] 0)
      [{ deviceId := 4, serialNumber := "abc", enabled := true,
         status := "offline", lastSeen := none }] := by
  decide

/-- C2 (amended): for payloads whose timestamp field, when present, is
null or a non-negative number (the domain on which the Date-cast model is
exact), `handleTelemetry` fully drops a message (stores no reading, leaves
the registry unchanged, evaluates no alerts, emits no fan-out) exactly
when the serial fails format validation, or no device matches, or the
device is disabled, or the payload has no non-timestamp fields, or — the
amendments — some enabled parameter of the device has its name supplied
with a non-null value (the `.lean()` `validateValue` dispatch throws), or
the serial fails the telemetry store's ten-digit schema validator. In
particular a message for an unregistered serial never creates a device or
a reading. -/
theorem c2_amended_drop_conditions (devices : List Device)
    (params : List Parameter) (serial : String) (payload : Payload) (now : ℕ)
    (htime : ∀ v, lookupField payload "timestamp" = some v →
      v = JSValue.null ∨ ∃ q, v = JSValue.num q ∧ 0 ≤ q) :
    (droppedT (handleTelemetry devices params serial payload now) devices ↔
      (validateSerialNumber serial = false ∨
       findDevice devices serial = none ∨
       (∃ d, findDevice devices serial = some d ∧ d.enabled = false) ∨
       payload.filter (fun kv => kv.1 != "timestamp") = [] ∨
       (∃ d, findDevice devices serial = some d ∧
          paramDispatchThrows params d.deviceId
            (payload.filter (fun kv => kv.1 != "timestamp")) = true) ∨
       telemetrySerialValid serial = false))
  ∧ (findDevice devices serial = none →
      (handleTelemetry devices params serial payload now).1.reading = none ∧
      (handleTelemetry devices params serial payload now).2 = devices) := by
  constructor
  · cases hval : validateSerialNumber serial with
    | false =>
      refine iff_of_true ?_ (Or.inl rfl)
      simp [handleTelemetry, hval, droppedT]
    | true =>
      cases hdev : findDevice devices serial with
      | none =>
        refine iff_of_true ?_ (Or.inr (Or.inl rfl))
        simp [handleTelemetry, hval, hdev, droppedT]
      | some d =>
        cases hen : d.enabled with
        | false =>
          refine iff_of_true ?_ (Or.inr (Or.inr (Or.inl ⟨d, rfl, hen⟩)))
          simp [handleTelemetry, hval, hdev, hen, droppedT]
        | true =>
          cases hdat : payload.filter (fun kv => kv.1 != "timestamp") with
          | nil =>
            refine iff_of_true ?_ (Or.inr (Or.inr (Or.inr (Or.inl rfl))))
            simp [handleTelemetry, hval, hdev, hen, hdat, droppedT]
          | cons x xs =>
            have hne : payload.filter (fun kv => kv.1 != "timestamp") ≠ [] := by
              rw [hdat]; exact List.cons_ne_nil x xs
            have hred := handleTelemetry_accepted devices params serial payload
              now hval d hdev hen hne
            rw [hdat] at hred
            cases hthrow : paramDispatchThrows params d.deviceId (x :: xs) with
            | true =>
              have hloop : validationLoop (getDeviceParameters params d.deviceId)
                  (x :: xs) =
                  .error "TypeError: param.validateValue is not a function" := by
                rw [validationLoop_eq]
                unfold paramDispatchThrows at hthrow
                simp [hthrow]
              rw [hloop] at hred
              refine iff_of_true ?_
                (Or.inr (Or.inr (Or.inr (Or.inr (Or.inl ⟨d, rfl, hthrow⟩)))))
              rw [hred]
              exact ⟨rfl, rfl, rfl, rfl⟩
            | false =>
              have hloop : validationLoop (getDeviceParameters params d.deviceId)
                  (x :: xs) = .ok [] := by
                rw [validationLoop_eq]
                unfold paramDispatchThrows at hthrow
                simp [hthrow]
              simp only [hloop] at hred
              obtain ⟨ts, hcast⟩ := castTimestamp_ok payload now htime
              simp only [hcast] at hred
              cases htd : telemetrySerialValid serial with
              | false =>
                have hst := fun dI data quality src topic =>
                  storeTelemetry_invalid_serial dI serial ts data quality src topic htd
                simp only [hst] at hred
                refine iff_of_true ?_
                  (Or.inr (Or.inr (Or.inr (Or.inr (Or.inr rfl)))))
                rw [hred]
                exact ⟨rfl, rfl, rfl, rfl⟩
              | true =>
                simp only [storeTelemetry_good d.deviceId serial ts (x :: xs)
                  "mqtt" ("iot/devices/" ++ serial ++ "/telemetry") htd] at hred
                refine iff_of_false ?_ ?_
                · rw [hred]
                  rintro ⟨h, -, -, -⟩
                  exact Option.some_ne_none _ h
                · rintro (h | h | ⟨d', hd', he'⟩ | h | ⟨d', hd', hthr⟩ | h)
                  · exact absurd h (by simp)
                  · exact absurd h (Option.some_ne_none d)
                  · cases hd'
                    rw [hen] at he'
                    exact absurd he' (by simp)
                  · exact List.cons_ne_nil x xs h
                  · cases hd'
                    rw [hthrow] at hthr
                    exact absurd hthr (by simp)
                  · exact absurd h (by simp)
  · intro hnone
    cases hval : validateSerialNumber serial with
    | false => constructor <;> simp [handleTelemetry, hval]
    | true => constructor <;> simp [handleTelemetry, hval, hnone]

/-- Witness for C2 (amended): an unknown serial number is dropped and
creates nothing. -/
theorem c2_witness :
    droppedT (handleTelemetry [] [] "unknown_01" [("temperature", .num 25)] 0) [] ∧
    (handleTelemetry [] [] "unknown_01" [("temperature", .num 25)] 0).1.reading = none :=
  ⟨(c2_amended_drop_conditions [] [] "unknown_01" [("temperature", .num 25)] 0
      (by intro v hv; nomatch hv)).1.mpr (Or.inr (Or.inl rfl)),
   ((c2_amended_drop_conditions [] [] "unknown_01" [("temperature", .num 25)] 0
      (by intro v hv; nomatch hv)).2 rfl).1⟩

/-! ## Claim C3 -/

/-- C3 is a code bug: the source plainly intends advisory validation — the
loop at client.js:100-109 computes `param.validateValue(value)`, warns on
an invalid result, and never returns early — and the spec states the same
invariant, but `Parameter.getDeviceParameters` ends in `.lean()`
(part_001:140), so the method dispatch throws a `TypeError` and the outer
catch drops the whole message before `storeTelemetry`. At the failing
input — registered enabled device with its ten-digit serial, its enabled
temperature parameter (max 150), payload temperature = 999 — the claim
requires exactly one stored reading with the failure logged as a warning;
the program stores nothing: the message is fully dropped. -/
theorem c3_code_bug_validatable_field_drops :
    validateSerialNumber "1234567890" = true ∧
    telemetrySerialValid "1234567890" = true ∧
    findDevice [exDevice] "1234567890" = some exDevice ∧
    exDevice.enabled = true ∧
    [(("temperature" : String), JSValue.num 999)].filter
      (fun kv => kv.1 != "timestamp") ≠ [] ∧
    fieldSupplied [("temperature", JSValue.num 999)] exParamTemp = true ∧
    (validateValue exParamTemp (.num 999)).valid = false ∧
    droppedT
      (handleTelemetry [exDevice] [exParamTemp] "1234567890"
        [("temperature", .num 999)] 77)
      [exDevice] := by
  decide

/-! ## Claim C8 -/

/-- Counterexample to C8 as stated: a status payload that specifies the
(falsy) empty-string status is still defaulted to "online" — the default
is applied not only when the payload specifies no status. -/
theorem c8_counterexample :
    handleStatus
        [{ deviceId := 9, serialNumber := "dev_9", enabled := true,
           status := "error", lastSeen := none }] "dev_9" (some "") 5 =
      ({ updated := true, emitted := some "online" },
       [{ deviceId := 9, serialNumber := "dev_9", enabled := true,
          status := "online", lastSeen := some 5 }]) ∧
    some "" ≠ (none : Option String) := by
  decide

/-- C8 (amended): every successful telemetry ingestion — one that stores a
reading — for a known device sets its status to "online" and refreshes
last-seen, regardless of prior state; a successful status ingestion sets
the payload status and refreshes last-seen, defaulting the status to
"online" when the payload's status field is absent or falsy (the empty
string). -/
theorem c8_amended_liveness (devices : List Device) (serial : String) (now : ℕ) :
    (∀ params payload (d : Device) (r : Reading),
       findDevice devices serial = some d →
       (handleTelemetry devices params serial payload now).1.reading = some r →
       (handleTelemetry devices params serial payload now).2 =
         setFirst devices serial { d with status := "online", lastSeen := some now })
  ∧ (∀ d : Device, validateSerialNumber serial = true →
       findDevice devices serial = some d →
       handleStatus devices serial none now =
         ({ updated := true, emitted := some "online" },
          setFirst devices serial { d with status := "online", lastSeen := some now }) ∧
       handleStatus devices serial (some "") now =
         ({ updated := true, emitted := some "online" },
          setFirst devices serial { d with status := "online", lastSeen := some now }) ∧
       (∀ s, s ≠ "" → s ∈ deviceStatusEnum →
          handleStatus devices serial (some s) now =
            ({ updated := true, emitted := some s },
             setFirst devices serial { d with status := s, lastSeen := some now }))) := by
  constructor
  · intro params payload d r hd hr
    cases hval : validateSerialNumber serial with
    | false => simp [handleTelemetry, hval] at hr
    | true =>
      cases hen : d.enabled with
      | false => simp [handleTelemetry, hval, hd, hen] at hr
      | true =>
        cases hdat : payload.filter (fun kv => kv.1 != "timestamp") with
        | nil => simp [handleTelemetry, hval, hd, hen, hdat] at hr
        | cons x xs =>
          have hne : payload.filter (fun kv => kv.1 != "timestamp") ≠ [] := by
            rw [hdat]; exact List.cons_ne_nil x xs
          have hred := handleTelemetry_accepted devices params serial payload
            now hval d hd hen hne
          cases hloop : validationLoop (getDeviceParameters params d.deviceId)
              (payload.filter (fun kv => kv.1 != "timestamp")) with
          | error e =>
            simp only [hloop] at hred
            rw [hred] at hr
            simp at hr
          | ok w =>
            simp only [hloop] at hred
            cases hcast : castTimestamp (lookupField payload "timestamp") now with
            | error e =>
              simp only [hcast] at hred
              rw [hred] at hr
              simp at hr
            | ok ts =>
              simp only [hcast] at hred
              cases hstore : storeTelemetry d.deviceId serial ts
                  (payload.filter (fun kv => kv.1 != "timestamp")) "good" "mqtt"
                  ("iot/devices/" ++ serial ++ "/telemetry") with
              | error e =>
                simp only [hstore] at hred
                rw [hred] at hr
                simp at hr
              | ok r' =>
                simp only [hstore] at hred
                rw [hred, hen]
  · intro d h1 hd
    have honline : "online" ∈ deviceStatusEnum := by decide
    refine ⟨?_, ?_, ?_⟩
    · simp [handleStatus, h1, hd, honline]
    · simp [handleStatus, h1, hd, honline]
    · intro s hs hsenum
      have hbeq : (s == "") = false := beq_eq_false_iff_ne.mpr hs
      simp [handleStatus, h1, hd, hbeq, hsenum]

/-- Witness for C8 (amended): a device in the "error" state goes online
with a refreshed last-seen when a telemetry message is successfully
ingested (reading stored), and a status message carrying "maintenance"
sets that status. -/
theorem c8_witness :
    (handleTelemetry [exDevice] [] "1234567890" [("temperature", .num 20)] 42).2 =
      setFirst [exDevice] "1234567890"
        { exDevice with status := "online", lastSeen := some 42 } ∧
    handleStatus [exDevice] "1234567890" (some "maintenance") 42 =
      ({ updated := true, emitted := some "maintenance" },
       setFirst [exDevice] "1234567890"
         { exDevice with status := "maintenance", lastSeen := some 42 }) :=
  ⟨(c8_amended_liveness [exDevice] "1234567890" 42).1 [] [("temperature", .num 20)]
     exDevice
     { deviceId := 7, serialNumber := "1234567890", timestamp := 42,
       data := [("temperature", .num 20)], quality := "good", source := "mqtt",
       mqttTopic := "iot/devices/1234567890/telemetry" }
     (by decide) (by decide),
   ((c8_amended_liveness [exDevice] "1234567890" 42).2 exDevice (by decide)
     (by decide)).2.2 "maintenance" (by decide) (by decide)⟩

/-! ## Claim C5 -/

/-- Counterexample to C5 as stated: with two active alerts on the same
field — the first a `.lean()` document whose method dispatch throws, the
second qualifying (value 101 over threshold 100) — the exception raised
while evaluating the first rule prevents the second rule's evaluation (no
log is written), even though evaluating the second rule alone writes one;
the exception is still caught, so `checkThresholds` returns normally. -/
theorem c5_counterexample :
    checkThresholds 0 [exEngineBad, exEngineGood] [("a", .num 101)] = [] ∧
    checkThresholds 0 [exEngineGood] [("a", .num 101)] =
      [mkAlertLog exEngineGood.alert
        (shouldTrigger 0 exEngineGood.alert (.num 101)) (.num 101)] ∧
    (checkThresholdsLoop 0 [("a", .num 101)] [exEngineBad, exEngineGood] []).2 =
      some "TypeError: alert.shouldTrigger is not a function" := by
  refine ⟨?_, ?_, ?_⟩ <;> decide

/-- C5 (amended): `checkThresholds` never propagates an exception — the
outer catch always returns the alert logs accumulated before any escaped
error; and when every alert document carries its methods (no dispatch
exception), every rule in the list is evaluated in order with no escaped
exception, a per-rule `triggerAlert` failure (e.g. a failing log write)
notwithstanding. An exception in the per-rule evaluation step itself,
however, aborts the remaining rules (see the counterexample). -/
theorem c5_amended_exception_handling (now : ℚ) (alerts : List EngineAlert)
    (fieldMap : Payload) :
    checkThresholds now alerts fieldMap = (checkThresholdsLoop now fieldMap alerts []).1
  ∧ ((∀ ea ∈ alerts, ea.methodsAvailable = true) → ∀ logs,
       checkThresholdsLoop now fieldMap alerts logs =
         (alerts.foldl (perAlertLogs now fieldMap) logs, none)) := by
  refine ⟨rfl, ?_⟩
  induction alerts with
  | nil => intro _ logs; rfl
  | cons ea rest ih =>
    intro hall logs
    have hea : ea.methodsAvailable = true := hall ea (List.mem_cons_self ea rest)
    have ihr := ih (fun x hx => hall x (List.mem_cons_of_mem ea hx))
    rcases hl : lookupField fieldMap ea.alert.parameterName with _ | v
    · simp [checkThresholdsLoop, hl, perAlertLogs, ihr]
    · cases v with
      | null => simp [checkThresholdsLoop, hl, perAlertLogs, ihr]
      | num q =>
        simp [checkThresholdsLoop, hl, callShouldTrigger, hea, perAlertLogs, ihr]
      | bool b =>
        simp [checkThresholdsLoop, hl, callShouldTrigger, hea, perAlertLogs, ihr]
      | str s =>
        simp [checkThresholdsLoop, hl, callShouldTrigger, hea, perAlertLogs, ihr]

/-- Witness for C5 (amended): a single well-formed rule evaluates through
the catch wrapper, and a failing log write on the first of two
method-carrying rules does not abort the second (the loop finishes with no
escaped exception). -/
theorem c5_witness :
    checkThresholds 0 [exEngineGood] [("a", .num 101)] =
      (checkThresholdsLoop 0 [("a", .num 101)] [exEngineGood] []).1 ∧
    checkThresholdsLoop 0 [("a", .num 101)]
        [{ exEngineGood with logWriteFails := true }, exEngineGood] [] =
      (List.foldl (perAlertLogs 0 [("a", .num 101)]) []
        [{ exEngineGood with logWriteFails := true }, exEngineGood], none) :=
  ⟨(c5_amended_exception_handling 0 [exEngineGood] [("a", .num 101)]).1,
   (c5_amended_exception_handling 0
       [{ exEngineGood with logWriteFails := true }, exEngineGood]
       [("a", .num 101)]).2 (by decide) []⟩

/-! ## Claim C6 -/

theorem mkBucket_timestamp (p : String) (k : ℕ) (rs : List Reading) :
    (mkBucket p k rs).timestamp = k := rfl

theorem intervalMsOf_pos (tag : String) : 0 < intervalMsOf tag := by
  unfold intervalMsOf intervalMap
  split <;> try simp
  split <;> try simp
  split <;> try simp
  split <;> try simp
  split <;> simp

theorem bucketStart_mod (m ts : ℕ) : bucketStart m ts % m = 0 := by
  unfold bucketStart
  have h := Nat.div_add_mod ts m
  rw [show ts - ts % m = m * (ts / m) by omega]
  exact Nat.mul_mod_right m _

/-- The aggregation pipeline in closed form: sorted deduplicated bucket
keys mapped to their group accumulators. -/
theorem getAggregatedParameter_eq (readings : List Reading) (deviceId : ℕ)
    (p : String) (startT endT : Option ℕ) (interval : String) :
    getAggregatedParameter readings deviceId p startT endT interval =
      ((((aggIncluded readings deviceId p startT endT).map
          (fun r => bucketStart (intervalMsOf interval) r.timestamp)).dedup).insertionSort
        (· ≤ ·)).map
        (fun k => mkBucket p k ((aggIncluded readings deviceId p startT endT).filter
          (fun r => bucketStart (intervalMsOf interval) r.timestamp == k))) := rfl

/-- C6: the aggregation query partitions matching readings into
epoch-aligned fixed-width buckets (`bucket start = timestamp - timestamp
mod intervalMs`, so every bucket key is divisible by the interval),
excludes readings whose named field is absent or null (it is insensitive
to them: filtering the input to the match predicate changes nothing),
computes each bucket from exactly the included readings in that bucket
(count, and average/min/max of the field's numeric values), returns
buckets strictly ascending by bucket start, and falls back to the 1h
interval on an unknown interval tag. -/
theorem c6_aggregation_spec (readings : List Reading) (deviceId : ℕ)
    (p : String) (startT endT : Option ℕ) (interval : String) :
    (interval ∉ ["5m", "15m", "1h", "6h", "1d"] →
       getAggregatedParameter readings deviceId p startT endT interval =
         getAggregatedParameter readings deviceId p startT endT "1h")
  ∧ List.Sorted (· ≤ ·)
      ((getAggregatedParameter readings deviceId p startT endT interval).map
        (·.timestamp))
  ∧ ((getAggregatedParameter readings deviceId p startT endT interval).map
      (·.timestamp)).Nodup
  ∧ (∀ b ∈ getAggregatedParameter readings deviceId p startT endT interval,
       b.timestamp % intervalMsOf interval = 0 ∧
       (∃ r ∈ aggIncluded readings deviceId p startT endT,
          b.timestamp = bucketStart (intervalMsOf interval) r.timestamp) ∧
       b = mkBucket p b.timestamp
             ((aggIncluded readings deviceId p startT endT).filter
               (fun r => bucketStart (intervalMsOf interval) r.timestamp ==
                 b.timestamp)))
  ∧ (∀ r ∈ aggIncluded readings deviceId p startT endT,
       ∃ b ∈ getAggregatedParameter readings deviceId p startT endT interval,
         b.timestamp = bucketStart (intervalMsOf interval) r.timestamp)
  ∧ getAggregatedParameter readings deviceId p startT endT interval =
      getAggregatedParameter (readings.filter (aggMatch deviceId p startT endT))
        deviceId p startT endT interval := by
  have hmap : (getAggregatedParameter readings deviceId p startT endT interval).map
      (·.timestamp) =
      (((aggIncluded readings deviceId p startT endT).map
        (fun r => bucketStart (intervalMsOf interval) r.timestamp)).dedup).insertionSort
        (· ≤ ·) := by
    rw [getAggregatedParameter_eq, List.map_map]
    exact List.map_id _
  refine ⟨?_, ?_, ?_, ?_, ?_, ?_⟩
  · intro h
    simp only [List.mem_cons, List.not_mem_nil, or_false, not_or] at h
    obtain ⟨h1, h2, h3, h4, h5⟩ := h
    have hm : intervalMsOf interval = intervalMsOf "1h" := by
      unfold intervalMsOf intervalMap
      simp [h1, h2, h3, h4, h5]
    simp only [getAggregatedParameter, hm]
  · rw [hmap]
    exact List.sorted_insertionSort (· ≤ ·) _
  · rw [hmap]
    exact (List.perm_insertionSort (· ≤ ·) _).nodup_iff.mpr (List.nodup_dedup _)
  · intro b hb
    rw [getAggregatedParameter_eq] at hb
    obtain ⟨k, hk, rfl⟩ := List.mem_map.mp hb
    have hkeys : k ∈ ((aggIncluded readings deviceId p startT endT).map
        (fun r => bucketStart (intervalMsOf interval) r.timestamp)).dedup :=
      (List.perm_insertionSort (· ≤ ·) _).mem_iff.mp hk
    obtain ⟨r, hr, hrk⟩ := List.mem_map.mp (List.mem_dedup.mp hkeys)
    refine ⟨?_, ⟨r, hr, ?_⟩, rfl⟩
    · rw [mkBucket_timestamp, ← hrk]
      exact bucketStart_mod _ _
    · rw [mkBucket_timestamp, hrk]
  · intro r hr
    have hkeys : bucketStart (intervalMsOf interval) r.timestamp ∈
        ((aggIncluded readings deviceId p startT endT).map
          (fun r => bucketStart (intervalMsOf interval) r.timestamp)).dedup :=
      List.mem_dedup.mpr (List.mem_map_of_mem _ hr)
    have hsorted : bucketStart (intervalMsOf interval) r.timestamp ∈
        (((aggIncluded readings deviceId p startT endT).map
          (fun r => bucketStart (intervalMsOf interval) r.timestamp)).dedup).insertionSort
          (· ≤ ·) :=
      (List.perm_insertionSort (· ≤ ·) _).mem_iff.mpr hkeys
    rw [getAggregatedParameter_eq]
    exact ⟨_, List.mem_map_of_mem _ hsorted, rfl⟩
  · have hfix : aggIncluded (readings.filter (aggMatch deviceId p startT endT))
        deviceId p startT endT = aggIncluded readings deviceId p startT endT := by
      simp [aggIncluded, List.filter_filter]
    simp only [getAggregatedParameter, hfix]

/-- Witness for C6: the spec's example — readings at 00:05, 00:55 and
01:05 aggregated over a two-hour range with 1h buckets give two buckets,
[00:00] count 2 with the mean of the first two values, [01:00] count 1;
the output is sorted and an unknown interval tag falls back to 1h. -/
theorem c6_witness :
    getAggregatedParameter [exReading1, exReading2, exReading3] 1 "x"
        (some 0) (some 7200000) "1h" =
      [{ timestamp := 0, avg := some 15, min := some 10,
         max := some 20, count := 2 },
       { timestamp := 3600000, avg := some 30, min := some 30,
         max := some 30, count := 1 }] ∧
    List.Sorted (· ≤ ·)
      ((getAggregatedParameter [exReading1, exReading2, exReading3] 1 "x"
        (some 0) (some 7200000) "1h").map (·.timestamp)) ∧
    getAggregatedParameter [exReading1, exReading2, exReading3] 1 "x"
        (some 0) (some 7200000) "weird" =
      getAggregatedParameter [exReading1, exReading2, exReading3] 1 "x"
        (some 0) (some 7200000) "1h" :=
  ⟨by
     rw [getAggregatedParameter_eq]
     have hinc : aggIncluded [exReading1, exReading2, exReading3] 1 "x"
         (some 0) (some 7200000) = [exReading1, exReading2, exReading3] := by decide
     rw [hinc]
     have hkeys : (([exReading1, exReading2, exReading3].map
         (fun r => bucketStart (intervalMsOf "1h") r.timestamp)).dedup).insertionSort
         (· ≤ ·) = [0, 3600000] := by decide
     rw [hkeys]
     have hf0 : [exReading1, exReading2, exReading3].filter
         (fun r => bucketStart (intervalMsOf "1h") r.timestamp == 0) =
         [exReading1, exReading2] := by decide
     have hf1 : [exReading1, exReading2, exReading3].filter
         (fun r => bucketStart (intervalMsOf "1h") r.timestamp == 3600000) =
         [exReading3] := by decide
     have hn0 : fieldNums [exReading1, exReading2] "x" = [10, 20] := by decide
     have hn1 : fieldNums [exReading3] "x" = [30] := by decide
     simp only [List.map_cons, List.map_nil, hf0, hf1, mkBucket, hn0, hn1]
     norm_num,
   (c6_aggregation_spec [exReading1, exReading2, exReading3] 1 "x"
      (some 0) (some 7200000) "1h").2.1,
   (c6_aggregation_spec [exReading1, exReading2, exReading3] 1 "x"
      (some 0) (some 7200000) "weird").1 (by decide)⟩

end IotDash
